import Mathlib

/-!
# Verification of the weather Telegram bot against its specification

Shallow embedding in Lean 4 of the parts of `weather_app.py`, `storage.py`
and `bot.py` that the claims touch.  Python dicts are embedded as
association lists (`List (String × _)`), floats as rationals (`ℚ`),
fallible results as `Option`.  Definitions mirror the control flow of the
source functions; theorems settle the claims.
-/

/-! ## Air-quality analysis (`weather_app.py`, `WeatherAPI.analyze_air_pollution`) -/

/-- Python `components.get(k, dflt)`: first binding of `k`, or the default. -/
def dictGet (d : List (String × ℚ)) (k : String) (dflt : ℚ) : ℚ :=
  match d.lookup k with
  | some v => v
  | none => dflt

/-- Shape of the dict returned by `analyze_air_pollution`: the early return
for an empty components dict carries only `status`/`status_ru`/`aqi`
(`unknown` here); the normal path carries status, aqi, pm25, pm10 and,
when `extended`, the components sub-dict.  (`status_ru` is a pure
translation of `status` by `utils.translate_pollution_status` and is not
modelled; no claim mentions it.) -/
inductive AirResult where
  | unknown
  | analysis (status : String) (aqi : Nat) (pm25 pm10 : ℚ)
      (comps : Option (List (String × ℚ)))
deriving DecidableEq

/-- Status string of an `AirResult` (the `'status'` entry of the dict). -/
def AirResult.statusOf : AirResult → String
  | .unknown => "Неизвестно"
  | .analysis s _ _ _ _ => s

/-- AQI of an `AirResult` (the `'aqi'` entry of the dict). -/
def AirResult.aqiOf : AirResult → Nat
  | .unknown => 0
  | .analysis _ a _ _ _ => a

/-- `WeatherAPI.analyze_air_pollution` (weather_app.py lines 270-332):
empty dict → unknown; otherwise classify from `pm2_5` (default 0) by the
chain `<=12 / <=35 / <=55 / <=150 / else`. -/
def analyze_air_pollution (components : List (String × ℚ)) (extended : Bool) :
    AirResult :=
  if components = [] then .unknown
  else
    let pm25 := dictGet components "pm2_5" 0
    let pm10 := dictGet components "pm10" 0
    let sa : String × Nat :=
      if pm25 ≤ 12 then ("Good", 1)
      else if pm25 ≤ 35 then ("Fair", 2)
      else if pm25 ≤ 55 then ("Moderate", 3)
      else if pm25 ≤ 150 then ("Poor", 4)
      else ("Very Poor", 5)
    let comps : Option (List (String × ℚ)) :=
      if extended then
        some [("co", dictGet components "co" 0),
              ("no", dictGet components "no" 0),
              ("no2", dictGet components "no2" 0),
              ("o3", dictGet components "o3" 0),
              ("so2", dictGet components "so2" 0),
              ("pm2_5", dictGet components "pm2_5" 0),
              ("pm10", dictGet components "pm10" 0),
              ("nh3", dictGet components "nh3" 0)]
      else none
    .analysis sa.1 sa.2 pm25 pm10 comps

/-! ## Wind-direction octant lookup (`bot.py`, `WeatherBot.handle_city_weather`,
lines 446-457) -/

/-- The `wind_directions` dict of `handle_city_weather`, in insertion order
(Python dict iteration order). Values are the Russian compass points:
"С" = N, "СВ" = NE, "В" = E, "ЮВ" = SE, "Ю" = S, "ЮЗ" = SW, "З" = W,
"СЗ" = NW. -/
def wind_directions : List ((ℚ × ℚ) × String) :=
  [((0, 22.5), "С"), ((22.5, 67.5), "СВ"), ((67.5, 112.5), "В"),
   ((112.5, 157.5), "ЮВ"), ((157.5, 202.5), "Ю"), ((202.5, 247.5), "ЮЗ"),
   ((247.5, 292.5), "З"), ((292.5, 337.5), "СЗ"), ((337.5, 360), "С")]

/-- The loop body: first entry with `start <= deg < end or (start == 0 and
deg == 0)` wins; if none matches, `wind_dir` keeps its initial value "?". -/
def windDirLoop (deg : ℚ) : List ((ℚ × ℚ) × String) → String
  | [] => "?"
  | (r, dir) :: rest =>
      if (r.1 ≤ deg ∧ deg < r.2) ∨ (r.1 = 0 ∧ deg = 0) then dir
      else windDirLoop deg rest

/-- Wind direction rendered for a numeric bearing `deg` (the `wind_deg !=
'N/A'` branch of `handle_city_weather`). -/
def wind_direction (deg : ℚ) : String := windDirLoop deg wind_directions

/-! ## Theorems for C1 and C2 -/

/-- The status/aqi pair produced by `analyze_air_pollution` on a
nonempty components dict is exactly the source's if-chain on pm2_5. -/
theorem analyze_status_aqi (components : List (String × ℚ)) (ext : Bool)
    (v : ℚ) (h : components.lookup "pm2_5" = some v)
    (hne : components ≠ []) :
    ((analyze_air_pollution components ext).statusOf,
     (analyze_air_pollution components ext).aqiOf) =
      (if v ≤ 12 then ("Good", 1)
       else if v ≤ 35 then ("Fair", 2)
       else if v ≤ 55 then ("Moderate", 3)
       else if v ≤ 150 then ("Poor", 4)
       else ("Very Poor", 5)) := by
  have hget : dictGet components "pm2_5" 0 = v := by
    simp [dictGet, h]
  simp only [analyze_air_pollution, if_neg hne, hget, AirResult.statusOf,
    AirResult.aqiOf]
  try (split_ifs <;> rfl)

/-- C1: for every components map containing a pm2_5 value `v`,
`analyze_air_pollution` classifies purely from `v` into exactly five
tiers: `v ≤ 12` → "Good"/1, `12 < v ≤ 35` → "Fair"/2, `35 < v ≤ 55` →
"Moderate"/3, `55 < v ≤ 150` → "Poor"/4, `v > 150` → "Very Poor"/5;
boundary values fall in the lower tier (their tier condition uses `≤`). -/
theorem analyze_air_pollution_five_tiers
    (components : List (String × ℚ)) (ext : Bool) (v : ℚ)
    (h : components.lookup "pm2_5" = some v) :
    ((v ≤ 12) ↔ ((analyze_air_pollution components ext).statusOf = "Good" ∧
       (analyze_air_pollution components ext).aqiOf = 1)) ∧
    ((12 < v ∧ v ≤ 35) ↔
      ((analyze_air_pollution components ext).statusOf = "Fair" ∧
       (analyze_air_pollution components ext).aqiOf = 2)) ∧
    ((35 < v ∧ v ≤ 55) ↔
      ((analyze_air_pollution components ext).statusOf = "Moderate" ∧
       (analyze_air_pollution components ext).aqiOf = 3)) ∧
    ((55 < v ∧ v ≤ 150) ↔
      ((analyze_air_pollution components ext).statusOf = "Poor" ∧
       (analyze_air_pollution components ext).aqiOf = 4)) ∧
    ((150 < v) ↔
      ((analyze_air_pollution components ext).statusOf = "Very Poor" ∧
       (analyze_air_pollution components ext).aqiOf = 5)) := by
  have hne : components ≠ [] := by
    intro he; rw [he] at h; simp [List.lookup] at h
  have hkey := analyze_status_aqi components ext v h hne
  by_cases h1 : v ≤ 12
  case pos =>
    rw [if_pos h1] at hkey
    have hs : (analyze_air_pollution components ext).statusOf = "Good" ∧
        (analyze_air_pollution components ext).aqiOf = 1 :=
      ⟨congrArg Prod.fst hkey, congrArg Prod.snd hkey⟩
    refine ⟨?_, ?_, ?_, ?_, ?_⟩ <;> constructor <;> intro hh <;> first
      | exact hs
      | linarith
      | (exfalso; exact absurd (hs.1.symm.trans hh.1) (by decide))
      | (exfalso; obtain ⟨hh1, hh2⟩ := hh; linarith)
      | (exact ⟨by linarith, by linarith⟩)
  case neg =>
  by_cases h2 : v ≤ 35
  case pos =>
    rw [if_neg h1, if_pos h2] at hkey
    have hs : (analyze_air_pollution components ext).statusOf = "Fair" ∧
        (analyze_air_pollution components ext).aqiOf = 2 :=
      ⟨congrArg Prod.fst hkey, congrArg Prod.snd hkey⟩
    refine ⟨?_, ?_, ?_, ?_, ?_⟩ <;> constructor <;> intro hh <;> first
      | exact hs
      | linarith
      | (exfalso; exact absurd (hs.1.symm.trans hh.1) (by decide))
      | (exfalso; obtain ⟨hh1, hh2⟩ := hh; linarith)
      | (exact ⟨by linarith, by linarith⟩)
  case neg =>
  by_cases h3 : v ≤ 55
  case pos =>
    rw [if_neg h1, if_neg h2, if_pos h3] at hkey
    have hs : (analyze_air_pollution components ext).statusOf = "Moderate" ∧
        (analyze_air_pollution components ext).aqiOf = 3 :=
      ⟨congrArg Prod.fst hkey, congrArg Prod.snd hkey⟩
    refine ⟨?_, ?_, ?_, ?_, ?_⟩ <;> constructor <;> intro hh <;> first
      | exact hs
      | linarith
      | (exfalso; exact absurd (hs.1.symm.trans hh.1) (by decide))
      | (exfalso; obtain ⟨hh1, hh2⟩ := hh; linarith)
      | (exact ⟨by linarith, by linarith⟩)
  case neg =>
  by_cases h4 : v ≤ 150
  case pos =>
    rw [if_neg h1, if_neg h2, if_neg h3, if_pos h4] at hkey
    have hs : (analyze_air_pollution components ext).statusOf = "Poor" ∧
        (analyze_air_pollution components ext).aqiOf = 4 :=
      ⟨congrArg Prod.fst hkey, congrArg Prod.snd hkey⟩
    refine ⟨?_, ?_, ?_, ?_, ?_⟩ <;> constructor <;> intro hh <;> first
      | exact hs
      | linarith
      | (exfalso; exact absurd (hs.1.symm.trans hh.1) (by decide))
      | (exfalso; obtain ⟨hh1, hh2⟩ := hh; linarith)
      | (exact ⟨by linarith, by linarith⟩)
  case neg =>
    rw [if_neg h1, if_neg h2, if_neg h3, if_neg h4] at hkey
    have hs : (analyze_air_pollution components ext).statusOf = "Very Poor" ∧
        (analyze_air_pollution components ext).aqiOf = 5 :=
      ⟨congrArg Prod.fst hkey, congrArg Prod.snd hkey⟩
    refine ⟨?_, ?_, ?_, ?_, ?_⟩ <;> constructor <;> intro hh <;> first
      | exact hs
      | linarith
      | (exfalso; exact absurd (hs.1.symm.trans hh.1) (by decide))
      | (exfalso; obtain ⟨hh1, hh2⟩ := hh; linarith)
      | (exact ⟨by linarith, by linarith⟩)

/-- Witness for C1 at the concrete components map `[("pm2_5", 20)]`. -/
theorem analyze_air_pollution_five_tiers_witness :
    ([("pm2_5", (20 : ℚ))].lookup "pm2_5" = some 20) ∧
    ((analyze_air_pollution [("pm2_5", 20)] false).statusOf = "Fair" ∧
     (analyze_air_pollution [("pm2_5", 20)] false).aqiOf = 2) := by
  refine ⟨by rfl, ?_⟩
  have h := analyze_air_pollution_five_tiers [("pm2_5", (20 : ℚ))] false 20 (by rfl)
  exact h.2.1.mp (by norm_num)

/-- Witness-free evaluation helper: a matching head entry wins the loop. -/
theorem windDirLoop_cons_true {deg s e : ℚ} {dir : String}
    {rest : List ((ℚ × ℚ) × String)}
    (h : (s ≤ deg ∧ deg < e) ∨ (s = 0 ∧ deg = 0)) :
    windDirLoop deg (((s, e), dir) :: rest) = dir := by
  rw [windDirLoop]; exact if_pos h

/-- A non-matching head entry is skipped by the loop. -/
theorem windDirLoop_cons_false {deg s e : ℚ} {dir : String}
    {rest : List ((ℚ × ℚ) × String)}
    (h : ¬ ((s ≤ deg ∧ deg < e) ∨ (s = 0 ∧ deg = 0))) :
    windDirLoop deg (((s, e), dir) :: rest) = windDirLoop deg rest := by
  rw [windDirLoop]; exact if_neg h

/-- C2 counterexample: the claim maps a bearing of exactly 360 to north
("С"), but no dict entry matches 360 (the last range is half-open below
360), so the rendered direction stays the initial placeholder "?". -/
theorem wind_direction_360_not_north :
    wind_direction 360 ≠ "С" ∧ wind_direction 360 = "?" := by
  have h : wind_direction 360 = "?" := by
    norm_num [wind_direction, wind_directions, windDirLoop]
  exact ⟨by rw [h]; decide, h⟩

/-- C2 amended: for bearings in [0, 360) the rendered direction is the
octant determined by the boundaries 0, 22.5, 67.5, 112.5, 157.5, 202.5,
247.5, 292.5, 337.5 (С=N, СВ=NE, В=E, ЮВ=SE, Ю=S, ЮЗ=SW, З=W, СЗ=NW, С=N
in turn), bearing 0 maps to north, and bearing 360 matches no octant and
yields the placeholder "?" instead of wrapping to north. -/
theorem wind_direction_octants (d : ℚ) :
    (0 ≤ d ∧ d < 22.5 → wind_direction d = "С") ∧
    (22.5 ≤ d ∧ d < 67.5 → wind_direction d = "СВ") ∧
    (67.5 ≤ d ∧ d < 112.5 → wind_direction d = "В") ∧
    (112.5 ≤ d ∧ d < 157.5 → wind_direction d = "ЮВ") ∧
    (157.5 ≤ d ∧ d < 202.5 → wind_direction d = "Ю") ∧
    (202.5 ≤ d ∧ d < 247.5 → wind_direction d = "ЮЗ") ∧
    (247.5 ≤ d ∧ d < 292.5 → wind_direction d = "З") ∧
    (292.5 ≤ d ∧ d < 337.5 → wind_direction d = "СЗ") ∧
    (337.5 ≤ d ∧ d < 360 → wind_direction d = "С") ∧
    wind_direction 0 = "С" ∧
    wind_direction 360 = "?" := by
  refine ⟨?_, ?_, ?_, ?_, ?_, ?_, ?_, ?_, ?_,
    by norm_num [wind_direction, wind_directions, windDirLoop],
    by norm_num [wind_direction, wind_directions, windDirLoop]⟩ <;>
    (rintro ⟨hlo, hhi⟩
     rw [wind_direction, wind_directions]
     repeat first
       | exact windDirLoop_cons_true (Or.inl ⟨hlo, hhi⟩)
       | rw [windDirLoop_cons_false
               (by rintro (⟨h1, h2⟩ | ⟨h1, h2⟩) <;> linarith)])

/-- Witness for C2's amended theorem at the concrete bearing 100 (octant
"В" = E). -/
theorem wind_direction_octants_witness :
    ((67.5 : ℚ) ≤ 100 ∧ (100 : ℚ) < 112.5) ∧ wind_direction 100 = "В" :=
  ⟨by norm_num, (wind_direction_octants 100).2.2.1 (by norm_num)⟩

/-! ## User storage (`storage.py`, `UserStorage`)

A user document is a Python dict keyed by the stringified user id; each
record is itself a dict.  Dicts are embedded as association lists whose
`lookup` takes the first binding; Python assignment `d[k] = v` keeps the
position of an existing key and appends a new one, and `d.update(new)`
assigns each binding of `new` in order.  The value type is left generic.
The on-disk document either parses as a dict, parses as some other JSON
value, or fails to parse; the store also keeps an (optional)
`.corrupted` quarantine sibling.  (`_save_data`'s best-effort `.backup`
copy is not modelled; no claim mentions it.) -/

/-- Python `d[k] = v` on a dict embedded as an association list. -/
def pySetItem {V : Type} (d : List (String × V)) (k : String) (v : V) :
    List (String × V) :=
  match d with
  | [] => [(k, v)]
  | (k', v') :: rest =>
      if k' = k then (k, v) :: rest else (k', v') :: pySetItem rest k v

/-- Python `d.update(new)`: assign each binding of `new` in order. -/
def pyUpdate {V : Type} (d new : List (String × V)) : List (String × V) :=
  new.foldl (fun acc kv => pySetItem acc kv.1 kv.2) d

/-- Parse outcome of the on-disk `User_Data.json`. -/
inductive RawFile (V : Type) where
  | valid (d : List (String × List (String × V)))
  | nonDict
  | invalid
deriving DecidableEq

/-- Filesystem state seen by `UserStorage`: the data file and its
`.corrupted` quarantine sibling, each possibly absent. -/
structure Disk (V : Type) where
  dataFile : Option (RawFile V)
  corruptedFile : Option (RawFile V)
deriving DecidableEq

/-- `UserStorage._ensure_file_exists`: create an empty dict document if
the data file is absent. -/
def ensure_file_exists {V : Type} (disk : Disk V) : Disk V :=
  match disk.dataFile with
  | none => { disk with dataFile := some (.valid []) }
  | some _ => disk

/-- `UserStorage._backup_and_reset`: rename the data file to the
`.corrupted` sibling (replacing any previous one), then recreate an
empty document. -/
def backup_and_reset {V : Type} (disk : Disk V) : Disk V :=
  match disk.dataFile with
  | none => ensure_file_exists disk
  | some raw =>
      ensure_file_exists { dataFile := none, corruptedFile := some raw }

/-- `UserStorage._load_data`: missing file → `{}`; valid non-dict JSON →
`{}`; JSON parse failure → quarantine + reset and return `{}`.  Returns
the parsed document together with the disk after any reset. -/
def load_data {V : Type} (disk : Disk V) :
    List (String × List (String × V)) × Disk V :=
  match disk.dataFile with
  | none => ([], disk)
  | some (.valid d) => (d, disk)
  | some .nonDict => ([], disk)
  | some .invalid => ([], backup_and_reset disk)

/-- `UserStorage._save_data`: rewrite the entire document. -/
def save_data {V : Type} (disk : Disk V)
    (data : List (String × List (String × V))) : Disk V :=
  { disk with dataFile := some (.valid data) }

/-- `UserStorage.load_user`: the user's record from the document, or an
empty record when the user id is absent (lines 105-123). -/
def load_user {V : Type} (disk : Disk V) (user_key : String) :
    List (String × V) × Disk V :=
  let (all_data, disk') := load_data disk
  match all_data.lookup user_key with
  | some rec => (rec, disk')
  | none => ([], disk')

/-- `UserStorage.save_user` (lines 125-150): merge the given fields into
the user's existing record (`dict.update`), or install them verbatim for
a new user, then rewrite the document. -/
def save_user {V : Type} (disk : Disk V) (user_key : String)
    (data : List (String × V)) : Disk V :=
  let (all_data, disk') := load_data disk
  let all_data' :=
    match all_data.lookup user_key with
    | some existing => pySetItem all_data user_key (pyUpdate existing data)
    | none => pySetItem all_data user_key data
  save_data disk' all_data'

/-! ### Lookup lemmas for the dict embedding -/

/-- Looking a key up after `pySetItem`. -/
theorem lookup_pySetItem {V : Type} (d : List (String × V)) (k k' : String)
    (v : V) :
    (pySetItem d k v).lookup k' = if k' = k then some v else d.lookup k' := by
  induction d with
  | nil =>
      by_cases h : k' = k
      · simp [pySetItem, List.lookup, h]
      · simp [pySetItem, List.lookup, h, beq_false_of_ne h]
  | cons hd tl ih =>
      obtain ⟨k₀, v₀⟩ := hd
      by_cases h0 : k₀ = k
      · subst h0
        by_cases h : k' = k₀
        · simp [pySetItem, List.lookup, h]
        · simp [pySetItem, List.lookup, h, beq_false_of_ne h]
      · by_cases h : k' = k
        · subst h
          simp [pySetItem, List.lookup, h0, ih, beq_false_of_ne (Ne.symm h0)]
        · by_cases h1 : k' = k₀
          · subst h1
            simp [pySetItem, List.lookup, h0, ih, h]
          · simp [pySetItem, List.lookup, h0, ih, h,
              beq_false_of_ne h1]

/-- A key outside a dict's key set looks up to `none`. -/
theorem lookup_eq_none_of_not_mem {V : Type} (d : List (String × V))
    (k : String) (h : k ∉ d.map Prod.fst) : d.lookup k = none := by
  induction d with
  | nil => rfl
  | cons hd tl ih =>
      obtain ⟨k₀, v₀⟩ := hd
      simp only [List.map_cons, List.mem_cons] at h
      push_neg at h
      simp [List.lookup, beq_false_of_ne h.1, ih h.2]

/-- Looking a key up after `pyUpdate`, when the update dict has no
duplicate keys (true of every Python dict): bindings of `new` win,
everything else is preserved. -/
theorem lookup_pyUpdate {V : Type} (new : List (String × V))
    (hnd : (new.map Prod.fst).Nodup) (d : List (String × V)) (k : String) :
    (pyUpdate d new).lookup k =
      ((new.lookup k).rec (d.lookup k) fun v => some v : Option V) := by
  induction new generalizing d with
  | nil => rfl
  | cons hd tl ih =>
      obtain ⟨k₀, v₀⟩ := hd
      simp only [List.map_cons, List.nodup_cons] at hnd
      have step : pyUpdate d ((k₀, v₀) :: tl) = pyUpdate (pySetItem d k₀ v₀) tl := rfl
      rw [step, ih hnd.2]
      by_cases h : k = k₀
      · subst h
        have htl : tl.lookup k = none :=
          lookup_eq_none_of_not_mem tl k hnd.1
        simp [htl, List.lookup, lookup_pySetItem]
      · simp [List.lookup, beq_false_of_ne h, h, lookup_pySetItem]

/-- A successful lookup means the key is in the dict's key set. -/
theorem mem_of_lookup_some {V : Type} (d : List (String × V)) (x : String)
    (w : V) (h : d.lookup x = some w) : x ∈ d.map Prod.fst := by
  induction d with
  | nil => simp [List.lookup] at h
  | cons hd tl ih =>
      obtain ⟨k₀, v₀⟩ := hd
      by_cases hx : x = k₀
      · simp [hx]
      · rw [List.lookup, beq_false_of_ne hx] at h
        simp [ih h]

/-- C3: `save_user` shallow-merges the given fields into the user's
existing record.  Starting from a document with no record for `uid`:
the first save installs exactly `d1`; a second save with a field set
`d2` disjoint from `d1` yields the union of both field sets; a third
save of the single overlapping binding `(k, v)` overwrites only `k` and
leaves every other field of the merged record unchanged. -/
theorem save_user_shallow_merge {V : Type}
    (all : List (String × List (String × V))) (uid : String)
    (d1 d2 : List (String × V)) (k : String) (v : V)
    (cf : Option (RawFile V))
    (h0 : all.lookup uid = none)
    (hnd2 : (d2.map Prod.fst).Nodup)
    (hdisj : ∀ x, x ∈ d1.map Prod.fst → x ∉ d2.map Prod.fst)
    (hk : k ∈ d1.map Prod.fst ∨ k ∈ d2.map Prod.fst) :
    (load_user (save_user ⟨some (.valid all), cf⟩ uid d1) uid).1 = d1 ∧
    (∀ x w, d1.lookup x = some w →
      ((load_user (save_user (save_user ⟨some (.valid all), cf⟩ uid d1)
          uid d2) uid).1).lookup x = some w) ∧
    (∀ x w, d2.lookup x = some w →
      ((load_user (save_user (save_user ⟨some (.valid all), cf⟩ uid d1)
          uid d2) uid).1).lookup x = some w) ∧
    (∀ x, d1.lookup x = none → d2.lookup x = none →
      ((load_user (save_user (save_user ⟨some (.valid all), cf⟩ uid d1)
          uid d2) uid).1).lookup x = none) ∧
    ((load_user (save_user (save_user (save_user ⟨some (.valid all), cf⟩
        uid d1) uid d2) uid [(k, v)]) uid).1).lookup k = some v ∧
    (∀ x, x ≠ k →
      ((load_user (save_user (save_user (save_user ⟨some (.valid all), cf⟩
          uid d1) uid d2) uid [(k, v)]) uid).1).lookup x =
      ((load_user (save_user (save_user ⟨some (.valid all), cf⟩ uid d1)
          uid d2) uid).1).lookup x) := by
  have e1 : save_user ⟨some (.valid all), cf⟩ uid d1 =
      ⟨some (.valid (pySetItem all uid d1)), cf⟩ := by
    simp [save_user, load_data, save_data, h0]
  have l1 : (pySetItem all uid d1).lookup uid = some d1 := by
    simp [lookup_pySetItem]
  have e2 : save_user ⟨some (.valid (pySetItem all uid d1)), cf⟩ uid d2 =
      ⟨some (.valid (pySetItem (pySetItem all uid d1) uid
        (pyUpdate d1 d2))), cf⟩ := by
    simp [save_user, load_data, save_data, l1]
  have l2 : (pySetItem (pySetItem all uid d1) uid
      (pyUpdate d1 d2)).lookup uid = some (pyUpdate d1 d2) := by
    simp [lookup_pySetItem]
  have e3 : save_user ⟨some (.valid (pySetItem (pySetItem all uid d1) uid
      (pyUpdate d1 d2))), cf⟩ uid [(k, v)] =
      ⟨some (.valid (pySetItem (pySetItem (pySetItem all uid d1) uid
        (pyUpdate d1 d2)) uid (pyUpdate (pyUpdate d1 d2) [(k, v)]))), cf⟩ := by
    simp [save_user, load_data, save_data, l2]
  have l3 : (pySetItem (pySetItem (pySetItem all uid d1) uid
      (pyUpdate d1 d2)) uid (pyUpdate (pyUpdate d1 d2) [(k, v)])).lookup uid
      = some (pyUpdate (pyUpdate d1 d2) [(k, v)]) := by
    simp [lookup_pySetItem]
  have r1 : (load_user (save_user ⟨some (.valid all), cf⟩ uid d1) uid).1
      = d1 := by
    rw [e1]; simp [load_user, load_data, l1]
  have r2 : (load_user (save_user (save_user ⟨some (.valid all), cf⟩ uid d1)
      uid d2) uid).1 = pyUpdate d1 d2 := by
    rw [e1, e2]; simp [load_user, load_data, l2]
  have r3 : (load_user (save_user (save_user (save_user
      ⟨some (.valid all), cf⟩ uid d1) uid d2) uid [(k, v)]) uid).1 =
      pyUpdate (pyUpdate d1 d2) [(k, v)] := by
    rw [e1, e2, e3]; simp [load_user, load_data, l3]
  have hup : ∀ x, (pyUpdate d1 d2).lookup x =
      ((d2.lookup x).rec (d1.lookup x) fun w => some w : Option V) :=
    fun x => lookup_pyUpdate d2 hnd2 d1 x
  have hupk : ∀ x, (pyUpdate (pyUpdate d1 d2) [(k, v)]).lookup x =
      (if x = k then some v else (pyUpdate d1 d2).lookup x) := by
    intro x
    rw [lookup_pyUpdate [(k, v)] (by simp) (pyUpdate d1 d2) x]
    by_cases hx : x = k
    · simp [List.lookup, hx]
    · simp [List.lookup, beq_false_of_ne hx, hx]
  refine ⟨r1, ?_, ?_, ?_, ?_, ?_⟩
  · intro x w hw
    have hx2 : d2.lookup x = none :=
      lookup_eq_none_of_not_mem d2 x
        (hdisj x (mem_of_lookup_some d1 x w hw))
    rw [r2, hup x, hx2, hw]
  · intro x w hw
    rw [r2, hup x, hw]
  · intro x h1 h2
    rw [r2, hup x, h2, h1]
  · rw [r3, hupk k, if_pos rfl]
  · intro x hx
    rw [r3, hupk x, if_neg hx, r2]

/-- Witness for C3 with a concrete store: user "1" absent, saves
`{a: 1}`, then `{b: 2}`, then `{a: 3}`. -/
theorem save_user_shallow_merge_witness :
    ((load_user (save_user (save_user (save_user
        (⟨some (.valid []), none⟩ : Disk ℕ) "1" [("a", 1)]) "1" [("b", 2)])
        "1" [("a", 3)]) "1").1).lookup "a" = some 3 := by
  have h := save_user_shallow_merge ([] : List (String × List (String × ℕ)))
    "1" [("a", 1)] [("b", 2)] "a" 3 none (by rfl) (by simp)
    (by intro x hx hx2; simp at hx hx2; subst hx; exact absurd hx2 (by decide))
    (Or.inl (by simp))
  exact h.2.2.2.2.1

/-- C4: `load_user` is total (the embedding returns a record for every
disk state, never an error).  On a well-formed document an unknown user
id loads as the empty record and the disk is untouched; on a document
that fails to parse, the store quarantines the unreadable file under the
`.corrupted` name (preserving its content), recreates an empty document,
and every load performed after this reset returns the empty record. -/
theorem load_user_unknown_and_corrupted {V : Type}
    (all : List (String × List (String × V))) (uid : String)
    (cf : Option (RawFile V)) (uid' uid'' : String)
    (h0 : all.lookup uid = none) :
    (load_user (⟨some (.valid all), cf⟩ : Disk V) uid).1 = [] ∧
    (load_user (⟨some (.valid all), cf⟩ : Disk V) uid).2 =
      ⟨some (.valid all), cf⟩ ∧
    (load_user (⟨some .invalid, cf⟩ : Disk V) uid').1 = [] ∧
    (load_user (⟨some .invalid, cf⟩ : Disk V) uid').2 =
      ⟨some (.valid []), some .invalid⟩ ∧
    (load_user ((load_user (⟨some .invalid, cf⟩ : Disk V) uid').2)
      uid'').1 = [] := by
  refine ⟨?_, ?_, ?_, ?_, ?_⟩ <;>
    simp [load_user, load_data, backup_and_reset, ensure_file_exists, h0]

/-- Witness for C4 on a concrete store holding only user "2". -/
theorem load_user_unknown_and_corrupted_witness :
    (load_user (⟨some (.valid [("2", [("a", 5)])]), none⟩ : Disk ℕ)
      "1").1 = [] ∧
    (load_user (⟨some .invalid, none⟩ : Disk ℕ) "1").2 =
      ⟨some (.valid []), some .invalid⟩ := by
  have h := load_user_unknown_and_corrupted [("2", [("a", 5)])] "1"
    (none : Option (RawFile ℕ)) "1" "1" (by rfl)
  exact ⟨h.1, h.2.2.2.1⟩

/-! ## HTTP request layer (`weather_app.py`, `WeatherAPI._make_request`)

`_make_request` consults a coordinate-keyed cache, then issues the HTTP
exchange through `utils.retry_request` with `max_attempts=3`, then caches
a truthy result.  The provider is modelled as a script: a list of
per-attempt outcomes consumed left to right.  Payloads are naturals with
`0` playing the role of a falsy (empty) JSON value, matching the
truthiness tests `if cached_data:` and `if result and cache_key:`.
`utils.py` is not part of the sources, so `retry_request`, `load_cache`
and `save_cache` are modelled from the spec. -/

/-- Outcome of one provider HTTP exchange. -/
inductive HttpResp where
  | ok (payload : Nat)
  | status429
  | status404
  | status401
  | otherHttpError
  | networkError
deriving DecidableEq

/-- The inner `_request` closure of `_make_request` (lines 61-85): a 429
raises (retryable); `raise_for_status` errors are caught and 404/401
return `None` (terminal), any other HTTP error re-raises; other request
exceptions re-raise.  `Except Unit` is "raised an exception". -/
def request_once : HttpResp → Except Unit (Option Nat)
  | .ok p => .ok (some p)
  | .status429 => .error ()
  | .status404 => .ok none
  | .status401 => .ok none
  | .otherHttpError => .error ()
  | .networkError => .error ()

/-- Modelled from the spec: `utils.retry_request` (utils.py is not among
the sources) retries a callable up to `max_attempts` attempts total,
re-attempting only when the call raises, and yields no result once the
budget is exhausted; a normal return (even `None`) is returned at once.
Returns the result, the number of attempts performed, and the unconsumed
script. -/
def retry_request : List HttpResp → Nat → Option Nat × Nat × List HttpResp
  | rs, 0 => (none, 0, rs)
  | [], _ + 1 => (none, 0, [])
  | r :: rs, n + 1 =>
      match request_once r with
      | .ok res => (res, 1, rs)
      | .error _ =>
          match retry_request rs n with
          | (res, c, rest) => (res, c + 1, rest)

/-- The cache key `f"{lat}_{lon}_{endpoint_name}"` of `_make_request`. -/
def cache_key_str (lat lon : ℚ) (endpoint_name : String) : String :=
  toString lat ++ "_" ++ toString lon ++ "_" ++ endpoint_name

/-- Modelled from the spec: `utils.load_cache` returns the entry stored
under the key if its age is within the time-to-live, else nothing. -/
def load_cache (cache : List (String × Nat × ℚ)) (key : String)
    (now ttl : ℚ) : Option Nat :=
  match cache.lookup key with
  | some (data, t) => if now - t < ttl then some data else none
  | none => none

/-- Modelled from the spec: `utils.save_cache` stores the value under the
key with the current timestamp. -/
def save_cache (cache : List (String × Nat × ℚ)) (key : String)
    (data : Nat) (now : ℚ) : List (String × Nat × ℚ) :=
  pySetItem cache key (data, now)

/-- Cache contents plus a counter of outbound provider exchanges. -/
structure ApiState where
  cache : List (String × Nat × ℚ)
  outbound : Nat
deriving DecidableEq

/-- `WeatherAPI._make_request` (lines 32-94): consult the cache when
`use_cache` and both coordinates are given and the cached entry is
truthy; otherwise run the exchange through `retry_request` with
`max_attempts=3` and store a truthy result under the coordinate key.
(The `params['appid']`/`params['lang']` mutation and the response
post-processing of the endpoint wrappers do not touch the cache or the
retry logic and are not modelled.)  The three weather-data endpoint
wrappers call this with `use_cache=True` and their coordinates;
`get_coordinates` (lines 96-141) calls it with `use_cache=False` and no
coordinates. -/
def make_request (st : ApiState) (responses : List HttpResp)
    (endpoint_name : String) (use_cache : Bool) (lat lon : Option ℚ)
    (now ttl : ℚ) : Option Nat × ApiState × List HttpResp :=
  let cache_key : Option String :=
    if use_cache then
      match lat, lon with
      | some la, some lo => some (cache_key_str la lo endpoint_name)
      | _, _ => none
    else none
  let hit : Option Nat :=
    match cache_key with
    | none => none
    | some k =>
        match load_cache st.cache k now ttl with
        | some d => if d ≠ 0 then some d else none
        | none => none
  match hit with
  | some d => (some d, st, responses)
  | none =>
      match retry_request responses 3 with
      | (result, c, rest) =>
          match result, cache_key with
          | some d, some k =>
              if d ≠ 0 then
                (some d, ⟨save_cache st.cache k d now, st.outbound + c⟩, rest)
              else (some d, ⟨st.cache, st.outbound + c⟩, rest)
          | _, _ => (result, ⟨st.cache, st.outbound + c⟩, rest)

/-- C5: in the request path a 429 is retryable — a [429, 429, 200]
script succeeds on the third attempt with the 200 payload and a
[429, 429, 429] script exhausts the 3-attempt budget and yields no
data — while 404 and 401 are terminal: the call returns no data after
exactly one attempt, leaving the rest of the script unconsumed.  Stated
on the retry primitive and on `_make_request` itself (empty cache). -/
theorem retry_and_terminal_policy (p : Nat) (rest : List HttpResp)
    (n : Nat) (ep : String) (la lo now ttl : ℚ) :
    retry_request [.status429, .status429, .ok p] 3 = (some p, 3, []) ∧
    retry_request [.status429, .status429, .status429] 3 = (none, 3, []) ∧
    retry_request (.status404 :: rest) 3 = (none, 1, rest) ∧
    retry_request (.status401 :: rest) 3 = (none, 1, rest) ∧
    (make_request ⟨[], n⟩ (.status429 :: .status429 :: .ok p :: rest)
      ep true (some la) (some lo) now ttl).1 = some p ∧
    (make_request ⟨[], n⟩ (.status429 :: .status429 :: .status429 :: rest)
      ep true (some la) (some lo) now ttl).1 = none ∧
    make_request ⟨[], n⟩ (.status404 :: rest) ep true (some la) (some lo)
      now ttl = (none, ⟨[], n + 1⟩, rest) ∧
    make_request ⟨[], n⟩ (.status401 :: rest) ep true (some la) (some lo)
      now ttl = (none, ⟨[], n + 1⟩, rest) := by
  refine ⟨rfl, rfl, rfl, rfl, ?_, ?_, rfl, rfl⟩
  · by_cases hp : p = 0
    · subst hp; rfl
    · simp [make_request, load_cache, retry_request, request_once, hp]
  · simp [make_request, load_cache, retry_request, request_once]

/-- C6: a successful truthy response to a weather-data request is stored
under the latitude/longitude/endpoint key and an immediately repeated
request is answered entirely from the cache — same payload, unchanged
state, unchanged script, so exactly one outbound exchange across the
two requests; requests issued with `use_cache=False` (geocoding) leave
the cache untouched and take result and script consumption from the
network alone, never from the cache. -/
theorem cache_policy (st : ApiState) (p : Nat) (rest resp2 : List HttpResp)
    (ep ep2 : String) (la lo : ℚ) (lat2 lon2 : Option ℚ) (now ttl : ℚ)
    (httl : 0 < ttl)
    (hmiss : load_cache st.cache (cache_key_str la lo ep) now ttl = none)
    (hp : p ≠ 0) :
    make_request st (.ok p :: rest) ep true (some la) (some lo) now ttl =
      (some p, ⟨save_cache st.cache (cache_key_str la lo ep) p now,
        st.outbound + 1⟩, rest) ∧
    make_request ⟨save_cache st.cache (cache_key_str la lo ep) p now,
        st.outbound + 1⟩ rest ep true (some la) (some lo) now ttl =
      (some p, ⟨save_cache st.cache (cache_key_str la lo ep) p now,
        st.outbound + 1⟩, rest) ∧
    (make_request st resp2 ep2 false lat2 lon2 now ttl).2.1.cache =
      st.cache ∧
    (make_request st resp2 ep2 false lat2 lon2 now ttl).1 =
      (retry_request resp2 3).1 ∧
    (make_request st resp2 ep2 false lat2 lon2 now ttl).2.2 =
      (retry_request resp2 3).2.2 := by
  have hhit : load_cache (save_cache st.cache (cache_key_str la lo ep) p now)
      (cache_key_str la lo ep) now ttl = some p := by
    simp [load_cache, save_cache, lookup_pySetItem, sub_self, httl]
  refine ⟨?_, ?_, ?_, ?_, ?_⟩
  · simp [make_request, hmiss, retry_request, request_once, hp]
  · simp [make_request, hhit, hp]
  all_goals
    rcases hr : retry_request resp2 3 with ⟨r, c, rs⟩
    cases r <;> simp [make_request, hr]

/-- Witness for C6: with an empty cache, coordinates (1, 2), endpoint
"weather", TTL 600 and payload 7 already cached by the first request,
the repeated request is served from the cache with no state change. -/
theorem cache_policy_witness :
    make_request ⟨save_cache [] (cache_key_str 1 2 "weather") 7 0, 1⟩ []
      "weather" true (some 1) (some 2) 0 600 =
    (some 7, ⟨save_cache [] (cache_key_str 1 2 "weather") 7 0, 1⟩, []) :=
  (cache_policy ⟨[], 0⟩ 7 [] [] "weather" "geocoding" 1 2 none none 0 600
    (by norm_num) rfl (by decide)).2.1

/-! ## Bot handlers reading stored coordinates (`bot.py`)

The handlers read user-record fields with `dict.get` and test them with
Python truthiness (`if lat and lon and city:`, `if not lat or not lon:`,
`a or b` fallback chains), under which both `None` and `0` (and the
empty string) are falsy. -/

/-- Python truthiness of an optional number: `None` and `0` are falsy. -/
def truthy : Option ℚ → Bool
  | none => false
  | some q => q ≠ 0

/-- Python `a or b` on optional numbers: `a` if truthy, else `b`. -/
def pyOr (a b : Option ℚ) : Option ℚ := if truthy a then a else b

/-- Python `a or b` where `a` is an optional string and `b` a string:
`None` and `""` are falsy. -/
def pyOrStr (a : Option String) (b : String) : String :=
  match a with
  | some s => if s ≠ "" then s else b
  | none => b

/-- The user-record fields read by the coordinate-consuming handlers:
saved geolocation (`lat`, `lon`, `city`) and last-queried city
(`last_lat`, `last_lon`, `last_city`), each absent when the record has
no such key. -/
structure UserData where
  lat : Option ℚ
  lon : Option ℚ
  city : Option String
  last_lat : Option ℚ
  last_lon : Option ℚ
  last_city : Option String
deriving DecidableEq

/-- Reply of `handle_current_weather_request` (bot.py 347-384): either
the quick-access keyboard for the saved location, or the generic prompt
asking for a geolocation or city name. -/
inductive CurrentWeatherPrompt where
  | savedLocation (city : String)
  | askLocation
deriving DecidableEq

/-- `WeatherBot.handle_current_weather_request`: branches on the
truthiness of `lat and lon and city` over the saved fields only. -/
def handle_current_weather_request (u : UserData) : CurrentWeatherPrompt :=
  let lat := u.lat
  let lon := u.lon
  let city := u.city.getD ""
  if truthy lat = true ∧ truthy lon = true ∧ city ≠ "" then
    .savedLocation city
  else .askLocation

/-- Reply of `handle_forecast_request` (bot.py 568-647): the prompt for
a location, or the inline day-selector keyboard built after fetching the
forecast for the selected coordinates. -/
inductive ForecastResponse where
  | promptForLocation
  | daySelector (lat lon : Option ℚ) (city : String)
deriving DecidableEq

/-- `WeatherBot.handle_forecast_request`: coordinates come from the
fallback chains `last_lat or lat` / `last_lon or lon`; `if not lat or
not lon` prompts for a location, otherwise the day selector is built
from the chained coordinates. -/
def handle_forecast_request (u : UserData) : ForecastResponse :=
  let lat := pyOr u.last_lat u.lat
  let lon := pyOr u.last_lon u.lon
  let city := pyOrStr u.last_city (u.city.getD "")
  if truthy lat = false ∨ truthy lon = false then .promptForLocation
  else .daySelector lat lon city

/-- Reply of `handle_forecast_day` (bot.py 693-729): the "геолокация не
найдена" error, or the day's forecast rendered from the coordinates the
callback read. -/
inductive ForecastDayResponse where
  | geoNotFound
  | dayForecast (lat lon : Option ℚ)
deriving DecidableEq

/-- `WeatherBot.handle_forecast_day`: reads only the saved `lat`/`lon`
fields (no `last_*` fallback) and replies that no geolocation was found
when they are missing or falsy. -/
def handle_forecast_day (u : UserData) : ForecastDayResponse :=
  let lat := u.lat
  let lon := u.lon
  if truthy lat = false ∨ truthy lon = false then .geoNotFound
  else .dayForecast lat lon

/-- Reply of `handle_extended_data_request` (bot.py 813-858): the prompt
for a location, or the extended data fetched for the chained
coordinates. -/
inductive ExtendedResponse where
  | promptForLocation
  | extendedData (lat lon : Option ℚ)
deriving DecidableEq

/-- `WeatherBot.handle_extended_data_request`: same `last_* or saved`
fallback chain and `if not lat or not lon` test as the forecast
handler. -/
def handle_extended_data_request (u : UserData) : ExtendedResponse :=
  let lat := pyOr u.last_lat u.lat
  let lon := pyOr u.last_lon u.lon
  if truthy lat = false ∨ truthy lon = false then .promptForLocation
  else .extendedData lat lon

/-- C9: a user whose record holds `last_lat`/`last_lon` (truthy) but no
saved `lat`/`lon` is offered the forecast day selector built from the
last-queried coordinates, yet selecting any day runs
`handle_forecast_day`, which reads only the saved fields and replies
that no geolocation was found instead of rendering the day. -/
theorem forecast_day_selector_mismatch (u : UserData) (la lo : ℚ)
    (hla : u.last_lat = some la) (hla0 : la ≠ 0)
    (hlo : u.last_lon = some lo) (hlo0 : lo ≠ 0)
    (hlat : u.lat = none) (hlon : u.lon = none) :
    handle_forecast_request u =
      .daySelector (some la) (some lo)
        (pyOrStr u.last_city (u.city.getD "")) ∧
    handle_forecast_day u = .geoNotFound := by
  constructor
  · simp [handle_forecast_request, pyOr, truthy, hla, hlo, hla0, hlo0]
  · simp [handle_forecast_day, truthy, hlat, hlon]

/-- Witness for C9: a record with `last_lat = 55`, `last_lon = 37` and
no saved coordinates. -/
theorem forecast_day_selector_mismatch_witness :
    handle_forecast_request
      ⟨none, none, none, some 55, some 37, some "Москва"⟩ =
      .daySelector (some 55) (some 37) "Москва" ∧
    handle_forecast_day ⟨none, none, none, some 55, some 37, some "Москва"⟩ =
      .geoNotFound := by
  have h := forecast_day_selector_mismatch
    ⟨none, none, none, some 55, some 37, some "Москва"⟩ 55 37
    rfl (by norm_num) rfl (by norm_num) rfl rfl
  exact ⟨h.1, h.2⟩

/-- C10: a user whose only stored latitude (or longitude) is the valid
coordinate 0 — saved field 0, no last-queried fallback — is treated as
having no location: the zero fails the truthiness tests, so all three
handlers prompt for a geolocation or city name instead of using the
stored coordinates. -/
theorem zero_coordinate_treated_as_absent (u : UserData)
    (h : (u.lat = some 0 ∧ u.last_lat = none) ∨
         (u.lon = some 0 ∧ u.last_lon = none)) :
    handle_current_weather_request u = .askLocation ∧
    handle_forecast_request u = .promptForLocation ∧
    handle_extended_data_request u = .promptForLocation := by
  rcases h with ⟨h1, h2⟩ | ⟨h1, h2⟩
  · refine ⟨?_, ?_, ?_⟩ <;>
      simp [handle_current_weather_request, handle_forecast_request,
        handle_extended_data_request, pyOr, truthy, h1, h2]
  · have hcw : handle_current_weather_request u = .askLocation := by
      simp [handle_current_weather_request, truthy, h1]
    refine ⟨hcw, ?_, ?_⟩ <;>
      simp [handle_forecast_request, handle_extended_data_request,
        pyOr, truthy, h1, h2]

/-! ## Notification loop (`bot.py`, `WeatherBot._check_and_send_notifications`
lines 120-149, `WeatherBot._send_notification` lines 151-192)

Times are rationals measured in hours.  The per-user record state is the
projection the loop reads: `notifications.get('enabled', False)`,
`notifications.get('interval_h', 2)`, `notifications.get('last_sent')`
(already parsed; the source skips the freshness check on an unparseable
timestamp — outside the claim), and the saved `lat`/`lon` checked with
`is None`.  The current-weather fetch is an oracle `fetch lat lon`
telling whether data came back.  A successful send goes through
`UserStorage.update_user_notification`, whose record-merge behaviour is
verified separately on `save_user`; here its effect on the fields read
by the next cycle — `last_sent := now` — is modelled directly. -/

/-- Per-user state read and written by the notification loop. -/
structure NotifUser where
  enabled : Bool
  interval_h : ℚ
  last_sent : Option ℚ
  lat : Option ℚ
  lon : Option ℚ
deriving DecidableEq

/-- What one cycle did for one user. -/
inductive NotifOutcome where
  | skippedDisabled
  | skippedTooSoon
  | skippedNoCoords
  | fetchFailed
  | sent
deriving DecidableEq

/-- `WeatherBot._send_notification`: bail out when `lat is None or lon
is None`; fetch the current weather and bail out when it yields no
data; otherwise push the message and update `last_sent` to now. -/
def send_notification (now : ℚ) (fetch : ℚ → ℚ → Bool) (u : NotifUser) :
    NotifOutcome × NotifUser :=
  match u.lat, u.lon with
  | some la, some lo =>
      if fetch la lo then (.sent, { u with last_sent := some now })
      else (.fetchFailed, u)
  | _, _ => (.skippedNoCoords, u)

/-- The loop body of `_check_and_send_notifications` for one user: skip
when notifications are not enabled; when `last_sent` is present and the
elapsed time is below `interval_h` hours, skip without fetching or
sending; otherwise run `_send_notification`. -/
def check_user (now : ℚ) (fetch : ℚ → ℚ → Bool) (u : NotifUser) :
    NotifOutcome × NotifUser :=
  if u.enabled = false then (.skippedDisabled, u)
  else
    match u.last_sent with
    | some t =>
        if now - t < u.interval_h then (.skippedTooSoon, u)
        else send_notification now fetch u
    | none => send_notification now fetch u

/-- One cycle of the background loop: apply the body to every loaded
user record. -/
def check_and_send_notifications (now : ℚ) (fetch : ℚ → ℚ → Bool)
    (users : List (String × NotifUser)) :
    List (String × NotifOutcome × NotifUser) :=
  users.map fun ku => (ku.1, check_user now fetch ku.2)

/-- C7: in every cycle, each loaded user is processed by the cycle body,
and for that body: a notification is sent only when notifications are
enabled and both saved coordinates are present, and then `last_sent` is
updated to the current time; a user without `last_sent` is eligible
immediately (and is sent to when coordinates are present and the fetch
succeeds); a user whose elapsed time since `last_sent` is below
`interval_h` is skipped unchanged, with no fetch and no send — the
outcome is the same under every fetch oracle. -/
theorem notification_cycle_policy (now : ℚ) (fetch fetch' : ℚ → ℚ → Bool)
    (users : List (String × NotifUser)) (k : String) (u : NotifUser)
    (hmem : (k, u) ∈ users) :
    ((k, check_user now fetch u) ∈
      check_and_send_notifications now fetch users) ∧
    ((check_user now fetch u).1 = .sent →
      u.enabled = true ∧ u.lat ≠ none ∧ u.lon ≠ none ∧
      (check_user now fetch u).2.last_sent = some now) ∧
    (∀ la lo, u.enabled = true → u.last_sent = none →
      u.lat = some la → u.lon = some lo → fetch la lo = true →
      check_user now fetch u =
        (.sent, { u with last_sent := some now })) ∧
    (∀ t, u.enabled = true → u.last_sent = some t →
      now - t < u.interval_h →
      check_user now fetch u = (.skippedTooSoon, u) ∧
      check_user now fetch' u = check_user now fetch u) := by
  refine ⟨List.mem_map_of_mem _ hmem, ?_, ?_, ?_⟩
  · intro hsent
    by_cases hen : u.enabled = false
    · simp [check_user, hen] at hsent
    · have hen' : u.enabled = true := by
        cases he : u.enabled
        · exact absurd he hen
        · rfl
      refine ⟨hen', ?_⟩
      rcases hlat : u.lat with _ | la
      · exfalso
        cases hls : u.last_sent with
        | none => simp [check_user, hen', hls, send_notification, hlat] at hsent
        | some t =>
            by_cases ht : now - t < u.interval_h <;>
              simp [check_user, hen', hls, ht, send_notification, hlat] at hsent
      · rcases hlon : u.lon with _ | lo
        · exfalso
          cases hls : u.last_sent with
          | none =>
              simp [check_user, hen', hls, send_notification, hlat, hlon] at hsent
          | some t =>
              by_cases ht : now - t < u.interval_h <;>
                simp [check_user, hen', hls, ht, send_notification,
                  hlat, hlon] at hsent
        · refine ⟨by simp [hlat], by simp [hlon], ?_⟩
          cases hls : u.last_sent with
          | none =>
              by_cases hf : fetch la lo <;>
                simp [check_user, hen', hls, send_notification,
                  hlat, hlon, hf] at hsent ⊢
          | some t =>
              by_cases ht : now - t < u.interval_h
              · simp [check_user, hen', hls, ht] at hsent
              · by_cases hf : fetch la lo <;>
                  simp [check_user, hen', hls, ht, send_notification,
                    hlat, hlon, hf] at hsent ⊢
  · intro la lo hen hls hlat hlon hf
    simp [check_user, hen, hls, send_notification, hlat, hlon, hf]
  · intro t hen hls ht
    constructor <;> simp [check_user, hen, hls, ht]

/-- Witness for C7: an enabled user last notified 1 hour ago with a
2-hour interval is skipped unchanged. -/
theorem notification_cycle_policy_witness :
    ((("7", check_user 10 (fun _ _ => true)
        ⟨true, 2, some 9, some 55, some 37⟩)) ∈
      check_and_send_notifications 10 (fun _ _ => true)
        [("7", ⟨true, 2, some 9, some 55, some 37⟩)]) ∧
    check_user 10 (fun _ _ => true) ⟨true, 2, some 9, some 55, some 37⟩ =
      (.skippedTooSoon, ⟨true, 2, some 9, some 55, some 37⟩) := by
  have h := notification_cycle_policy 10 (fun _ _ => true) (fun _ _ => false)
    [("7", ⟨true, 2, some 9, some 55, some 37⟩)] "7"
    ⟨true, 2, some 9, some 55, some 37⟩ (by simp)
  exact ⟨h.1, (h.2.2.2 9 rfl rfl (by norm_num)).1⟩

/-! ## Inline query result identifier (`bot.py`,
`WeatherBot.handle_inline_query` lines 1051-1088)

The single article result is built with `id=str(hash(query_text))`.
CPython's `hash` on `str` is SipHash-1-3 (Python/pyhash.c, `pysiphash`
since 3.11; 3.4-3.10 used SipHash-2-4 — equally key-dependent) over the
bytes of the string's canonical representation, keyed by a 128-bit
per-process key drawn at interpreter start (hash randomization, on by
default; `PYTHONHASHSEED`); the 64-bit output is read as a signed
`Py_hash_t`, `-1` is replaced by `-2`, and the empty string hashes to
`0`.  The hash is embedded below with the process key explicit, since
the claim quantifies over runs of the process.  64-bit words are
naturals reduced modulo `2 ^ 64`. -/

/-- Truncation to 64 bits. -/
def wrap64 (x : Nat) : Nat := x % 2 ^ 64

/-- 64-bit left rotation (for `x < 2 ^ 64`, `b ≤ 64`). -/
def rotl64 (x b : Nat) : Nat := wrap64 (x * 2 ^ b) + x / 2 ^ (64 - b)

/-- One SipHash round (`SINGLE_ROUND` of Python/pyhash.c: `HALF_ROUND`
with shifts 13/16 then 17/21). -/
def sipRound (v : Nat × Nat × Nat × Nat) : Nat × Nat × Nat × Nat :=
  let v0 := wrap64 (v.1 + v.2.1)
  let v2 := wrap64 (v.2.2.1 + v.2.2.2)
  let v1 := rotl64 v.2.1 13 ^^^ v0
  let v3 := rotl64 v.2.2.2 16 ^^^ v2
  let v0 := rotl64 v0 32
  let v2 := wrap64 (v2 + v1)
  let v0 := wrap64 (v0 + v3)
  let v1 := rotl64 v1 17 ^^^ v2
  let v3 := rotl64 v3 21 ^^^ v0
  let v2 := rotl64 v2 32
  (v0, v1, v2, v3)

/-- A byte list read as a little-endian natural. -/
def le64 (bs : List Nat) : Nat := bs.foldr (fun b acc => b + 256 * acc) 0

/-- Compression loop: absorb each full 8-byte little-endian word,
return the state and the trailing partial word. -/
def sipChunks (v : Nat × Nat × Nat × Nat) :
    List Nat → (Nat × Nat × Nat × Nat) × List Nat
  | b0 :: b1 :: b2 :: b3 :: b4 :: b5 :: b6 :: b7 :: rest =>
      let mi := le64 [b0, b1, b2, b3, b4, b5, b6, b7]
      let v := (v.1, v.2.1, v.2.2.1, v.2.2.2 ^^^ mi)
      let v := sipRound v
      sipChunks (v.1 ^^^ mi, v.2.1, v.2.2.1, v.2.2.2) rest
  | rest => (v, rest)

/-- SipHash-1-3 of a byte string under the 128-bit key `(k0, k1)`:
1 compression round per word, 3 finalization rounds. -/
def siphash13 (k0 k1 : Nat) (msg : List Nat) : Nat :=
  let v0 := wrap64 k0 ^^^ 0x736f6d6570736575
  let v1 := wrap64 k1 ^^^ 0x646f72616e646f6d
  let v2 := wrap64 k0 ^^^ 0x6c7967656e657261
  let v3 := wrap64 k1 ^^^ 0x7465646279746573
  let s := sipChunks (v0, v1, v2, v3) msg
  let b := wrap64 (msg.length % 256 * 2 ^ 56) + le64 s.2
  let v := (s.1.1, s.1.2.1, s.1.2.2.1, s.1.2.2.2 ^^^ b)
  let v := sipRound v
  let v := (v.1 ^^^ b, v.2.1, v.2.2.1 ^^^ 0xff, v.2.2.2)
  let v := sipRound v
  let v := sipRound v
  let v := sipRound v
  (v.1 ^^^ v.2.1) ^^^ (v.2.2.1 ^^^ v.2.2.2)

/-- Bytes of the canonical (PEP 393) representation of a string on a
little-endian platform: 1-, 2- or 4-byte code units depending on the
widest character (this is what `unicode_hash` feeds to the byte hash). -/
def strReprBytes (s : String) : List Nat :=
  let cs := s.data.map Char.toNat
  if cs.all (· < 256) then cs
  else if cs.all (· < 65536) then
    cs.flatMap fun n => [n % 256, n / 256]
  else
    cs.flatMap fun n =>
      [n % 256, n / 256 % 256, n / 65536 % 256, n / 16777216]

/-- CPython `hash` of a `str` under process hash key `(k0, k1)`: empty
string hashes to 0; otherwise SipHash of the representation bytes, read
as a signed 64-bit value, with `-1` replaced by `-2`. -/
def pyHashStr (k0 k1 : Nat) (s : String) : Int :=
  let bs := strReprBytes s
  if bs = [] then 0
  else
    let h := siphash13 k0 k1 bs
    let z : Int := if h < 2 ^ 63 then (h : Int) else (h : Int) - 2 ^ 64
    if z = -1 then -2 else z

/-- The inline article result identifier `str(hash(query_text))`
(bot.py line 1077), with the process hash key explicit. -/
def inline_result_id (k0 k1 : Nat) (query_text : String) : String :=
  toString (pyHashStr k0 k1 query_text)

/-- C8 counterexample: the result identifier is not derived from the
query text alone — it also depends on the per-process hash key, so two
runs of the process with different keys produce different identifiers
for the same query text.  Under the zero key (CPython with
`PYTHONHASHSEED=0`) the query "Moscow" yields id
"-1769601092830302697"; under key (0, 1) it yields id
"3799949138908362295". -/
theorem inline_result_id_depends_on_process_key :
    inline_result_id 0 0 "Moscow" ≠ inline_result_id 0 1 "Moscow" ∧
    pyHashStr 0 0 "Moscow" = -1769601092830302697 ∧
    pyHashStr 0 1 "Moscow" = 3799949138908362295 := by
  refine ⟨?_, by decide, by decide⟩
  decide

/-- C8 amended: within a single run of the process — under a fixed
interpreter hash key — the identifier of the single article result is a
function of the query text alone: two inline queries with the same
query text produce the same result identifier. -/
theorem inline_result_id_deterministic_within_run (k0 k1 : Nat)
    (q q' : String) (h : q = q') :
    inline_result_id k0 k1 q = inline_result_id k0 k1 q' := by rw [h]

/-- Witness for C8's amended claim at the query "Moscow" under the zero
key. -/
theorem inline_result_id_deterministic_within_run_witness :
    ("Moscow" = "Moscow") ∧
    inline_result_id 0 0 "Moscow" = inline_result_id 0 0 "Moscow" :=
  ⟨rfl, inline_result_id_deterministic_within_run 0 0 "Moscow" "Moscow" rfl⟩

/-- Witness for C10: a user with saved coordinates (0, 10) — on the
equator — and no last-queried coordinates is prompted by all three
handlers. -/
theorem zero_coordinate_treated_as_absent_witness :
    handle_current_weather_request
      ⟨some 0, some 10, some "Null Island", none, none, none⟩ =
      .askLocation ∧
    handle_forecast_request
      ⟨some 0, some 10, some "Null Island", none, none, none⟩ =
      .promptForLocation ∧
    handle_extended_data_request
      ⟨some 0, some 10, some "Null Island", none, none, none⟩ =
      .promptForLocation :=
  zero_coordinate_treated_as_absent
    ⟨some 0, some 10, some "Null Island", none, none, none⟩
    (Or.inl ⟨rfl, rfl⟩)
